import Mathlib

/-!
Verification of the night-feed incremental-state deduplication model and
staged-pipeline execution engine.  The definitions below are shallow
embeddings of the Python source:

* `is_rss_item_new`, `mark_rss_item_seen`, `fetch_rss_feed` —
  services/collector/utils/db.py and services/collector/sources/rss_feeds.py
* `store_steam_rankings` ranking rows, `get_previous_rankings` shape,
  `calculate_rank_changes` — services/collector/sources/steam.py and utils/db.py
* `run_service`, `run_pipeline`, `log_execution` traces —
  services/orchestrator/orchestrator.py
* `fetch_and_process_reviews`, `fetch_and_process_discussions`,
  `should_generate_summary`, the main-loop flag handling — app/main.py

Stateful code (the sqlite tables, the filesystem, subprocess attempts,
wall-clock sleeps) is embedded by explicit state passing: tables are lists
of rows, attempt outcomes are an oracle function `Nat → AttemptOutcome`,
and side effects (log inserts, notifications, sleeps) are collected into
trace lists so that temporal claims become statements about those lists.
-/

namespace NightFeed

/-! ## Cursor store: the rss_seen table (services/collector/utils/db.py) -/

/-- One row of the rss_seen table (url is the primary key). -/
structure RssSeenRow where
  url : String
  title : String
  source : String
deriving Repr, DecidableEq

/-- Python is_rss_item_new: SELECT 1 FROM rss_seen WHERE url = ?; returns
not exists. -/
def is_rss_item_new (table : List RssSeenRow) (url : String) : Bool :=
  !(table.any fun row => row.url = url)

/-- Python mark_rss_item_seen: INSERT OR IGNORE INTO rss_seen — appends a
row unless the url (primary key) is already present. -/
def mark_rss_item_seen (table : List RssSeenRow) (url title source : String) :
    List RssSeenRow :=
  if table.any fun row => row.url = url then table
  else table ++ [⟨url, title, source⟩]

/-! ## Incremental RSS fetcher (services/collector/sources/rss_feeds.py) -/

/-- One parsed feed entry; link = "" models a feed entry with no link
(Python: entry.get('link', '') is falsy). -/
structure RssEntry where
  title : String
  link : String
deriving Repr, DecidableEq

/-- One item returned by fetch_rss_feed. -/
structure RssItem where
  source : String
  title : String
  url : String
deriving Repr, DecidableEq

/-- The entry loop of fetch_rss_feed: skip entries without a link, skip
entries whose url is already in rss_seen, append the rest and mark them
seen.  Returns the collected items together with the final rss_seen
table. -/
def fetch_rss_feed_go (name : String) :
    List RssEntry → List RssSeenRow → List RssItem × List RssSeenRow
  | [], table => ([], table)
  | e :: rest, table =>
    if e.link = "" then fetch_rss_feed_go name rest table
    else if is_rss_item_new table e.link then
      let step := fetch_rss_feed_go name rest (mark_rss_item_seen table e.link e.title name)
      (⟨name, e.title, e.link⟩ :: step.1, step.2)
    else fetch_rss_feed_go name rest table

/-- Python fetch_rss_feed: processes the first max_items entries of the
feed snapshot against the rss_seen table. -/
def fetch_rss_feed (name : String) (maxItems : Nat) (entries : List RssEntry)
    (table : List RssSeenRow) : List RssItem × List RssSeenRow :=
  fetch_rss_feed_go name (entries.take maxItems) table

/-! ## Steam rankings (services/collector/sources/steam.py, utils/db.py) -/

/-- One current ranked game as built by fetch_top_sellers. -/
structure RankedGame where
  appid : Nat
  name : String
  rank : Nat
  rank_change : Option Int
deriving Repr, DecidableEq

/-- The {name, rank} value stored per appid in one day of
get_previous_rankings output. -/
structure PrevEntry where
  name : String
  rank : Nat
deriving Repr, DecidableEq

/-- One stored day of rankings: the appid-keyed dict for that date. -/
abbrev DayRankings := List (Nat × PrevEntry)

/-- Output shape of get_previous_rankings: a date-keyed dict of days.
Dates are modelled as Nat (ISO date strings compare like their day
numbers). -/
abbrev RankingsByDate := List (Nat × DayRankings)

/-- Dict lookup previous[appid]. -/
def lookupRank (day : DayRankings) (appid : Nat) : Option PrevEntry :=
  (day.find? fun p => p.1 = appid).map Prod.snd

/-- Python sorted(previous_rankings.keys(), reverse=True)[0]: the maximum
date key. -/
def latest_date (dates : List Nat) : Nat :=
  dates.foldl max 0

/-- Dict lookup previous_rankings[d]. -/
def dayAt (prevs : RankingsByDate) (d : Nat) : DayRankings :=
  ((prevs.find? fun p => p.1 = d).map Prod.snd).getD []

/-- Python calculate_rank_changes: with no previous data the current list
is returned unchanged; otherwise the single most recent stored day is
selected and each game gets rank_change = previous_rank - current_rank
when its appid is present there, None when absent. -/
def calculate_rank_changes (current : List RankedGame) (previous_rankings : RankingsByDate) :
    List RankedGame :=
  match previous_rankings with
  | [] => current
  | _ :: _ =>
    let previous := dayAt previous_rankings (latest_date (previous_rankings.map Prod.fst))
    current.map fun game =>
      match lookupRank previous game.appid with
      | some pe => { game with rank_change := some ((pe.rank : Int) - (game.rank : Int)) }
      | none => { game with rank_change := none }

/-- Modelled from the spec (§4.3), for comparison with the source only:
the claimed delta computation whose previous set is the most recent
stored date strictly before today. -/
def computeDeltas_strictlyBefore (today : Nat) (current : List RankedGame)
    (previous_rankings : RankingsByDate) : List RankedGame :=
  match (previous_rankings.map Prod.fst).filter (fun d => d < today) with
  | [] => current
  | d :: ds =>
    let previous := dayAt previous_rankings (latest_date (d :: ds))
    current.map fun game =>
      match lookupRank previous game.appid with
      | some pe => { game with rank_change := some ((pe.rank : Int) - (game.rank : Int)) }
      | none => { game with rank_change := none }

/-! ## Helper lemmas about the RSS fetcher -/

theorem any_mark_rss_item_seen (table : List RssSeenRow) (url title source u : String)
    (h : (table.any fun row => row.url = u) = true) :
    ((mark_rss_item_seen table url title source).any fun row => row.url = u) = true := by
  unfold mark_rss_item_seen
  split
  · exact h
  · simp [List.any_append, h]

theorem any_mark_rss_item_seen_self (table : List RssSeenRow) (url title source : String) :
    ((mark_rss_item_seen table url title source).any fun row => row.url = url) = true := by
  unfold mark_rss_item_seen
  split
  · assumption
  · simp [List.any_append]

theorem fetch_rss_feed_go_seen_mono (name : String) (entries : List RssEntry) :
    ∀ table u, (table.any fun row => row.url = u) = true →
      ((fetch_rss_feed_go name entries table).2.any fun row => row.url = u) = true := by
  induction entries with
  | nil => intro table u h; simpa [fetch_rss_feed_go] using h
  | cons e rest ih =>
    intro table u h
    by_cases hl : e.link = ""
    · simpa [fetch_rss_feed_go, hl] using ih table u h
    · by_cases hn : is_rss_item_new table e.link = true
      · simpa [fetch_rss_feed_go, hl, hn] using
          ih (mark_rss_item_seen table e.link e.title name) u
            (any_mark_rss_item_seen table e.link e.title name u h)
      · simpa [fetch_rss_feed_go, hl, hn] using ih table u h

theorem fetch_rss_feed_go_link_seen (name : String) (entries : List RssEntry) :
    ∀ table e, e ∈ entries → e.link ≠ "" →
      ((fetch_rss_feed_go name entries table).2.any fun row => row.url = e.link) = true := by
  induction entries with
  | nil => intro table e he; cases he
  | cons a rest ih =>
    intro table e he hl
    rcases List.mem_cons.mp he with rfl | hmem
    · by_cases hn : is_rss_item_new table e.link = true
      · simpa [fetch_rss_feed_go, hl, hn] using
          fetch_rss_feed_go_seen_mono name rest
            (mark_rss_item_seen table e.link e.title name) e.link
            (any_mark_rss_item_seen_self table e.link e.title name)
      · have hseen : (table.any fun row => row.url = e.link) = true := by
          unfold is_rss_item_new at hn
          simpa using hn
        simpa [fetch_rss_feed_go, hl, hn] using
          fetch_rss_feed_go_seen_mono name rest table e.link hseen
    · by_cases hal : a.link = ""
      · simpa [fetch_rss_feed_go, hal] using ih table e hmem hl
      · by_cases hn : is_rss_item_new table a.link = true
        · simpa [fetch_rss_feed_go, hal, hn] using
            ih (mark_rss_item_seen table a.link a.title name) e hmem hl
        · simpa [fetch_rss_feed_go, hal, hn] using ih table e hmem hl

theorem fetch_rss_feed_go_nil_of_seen (name : String) (entries : List RssEntry) :
    ∀ table,
      (∀ e ∈ entries, e.link ≠ "" → (table.any fun row => row.url = e.link) = true) →
      (fetch_rss_feed_go name entries table).1 = [] := by
  induction entries with
  | nil => intro table _; simp [fetch_rss_feed_go]
  | cons e rest ih =>
    intro table h
    by_cases hl : e.link = ""
    · simpa [fetch_rss_feed_go, hl] using
        ih table (fun x hx hxl => h x (List.mem_cons_of_mem e hx) hxl)
    · have hseen : (table.any fun row => row.url = e.link) = true :=
        h e (List.mem_cons_self e rest) hl
      have hn : is_rss_item_new table e.link = false := by
        unfold is_rss_item_new
        simpa using hseen
      simpa [fetch_rss_feed_go, hl, hn] using
        ih table (fun x hx hxl => h x (List.mem_cons_of_mem e hx) hxl)

/-! ## Review fetcher (app/main.py) -/

/-- One Steam review as consumed by fetch_and_process_reviews;
recommendationid = "" models a review dict without a truthy id. -/
structure Review where
  recommendationid : String
  voted_up : Bool
deriving Repr, DecidableEq

/-- The stats dict returned by fetch_and_process_reviews. -/
structure ReviewStats where
  new_positive : Nat
  new_negative : Nat
  total_positive : Nat
  total_negative : Nat
  is_first_run : Bool
deriving Repr, DecidableEq

/-- The reviews table, keyed by recommendationid (primary key). -/
abbrev ReviewsTable := List Review

/-- Membership test backing get_existing_review_ids. -/
def existsReview (table : ReviewsTable) (id : String) : Bool :=
  table.any fun r => r.recommendationid = id

/-- Python insert_reviews: INSERT OR IGNORE each review in order — a row
is appended unless its recommendationid is already present. -/
def insert_reviews (table : ReviewsTable) (new_reviews : List Review) : ReviewsTable :=
  new_reviews.foldl
    (fun t r => if existsReview t r.recommendationid then t else t ++ [r]) table

/-- Count of rows with voted_up = 1 (get_total_counts, positive). -/
def totalPositive (table : ReviewsTable) : Nat :=
  (table.filter fun r => r.voted_up).length

/-- Count of rows with voted_up = 0 (get_total_counts, negative). -/
def totalNegative (table : ReviewsTable) : Nat :=
  (table.filter fun r => !r.voted_up).length

/-- Membership test of the new_reviews list comprehension: the review has
a truthy id and that id is not among the existing ids. -/
def newReviewPred (table : ReviewsTable) (r : Review) : Bool :=
  r.recommendationid ≠ "" && !(existsReview table r.recommendationid)

/-- Python fetch_and_process_reviews, with the API snapshot and the
reviews table passed explicitly.  An empty snapshot returns None.  A
snapshot with no new reviews returns zero counts with is_first_run
hard-coded to False.  Otherwise new reviews are inserted and is_first_run
reflects whether the table was empty before the call. -/
def fetch_and_process_reviews (snapshot : List Review) (table : ReviewsTable) :
    Option ReviewStats × ReviewsTable :=
  match snapshot with
  | [] => (none, table)
  | _ :: _ =>
    let first_run := decide (table.length = 0)
    match snapshot.filter (newReviewPred table) with
    | [] => (some ⟨0, 0, totalPositive table, totalNegative table, false⟩, table)
    | r :: rs =>
      let table' := insert_reviews table (r :: rs)
      (some ⟨((r :: rs).filter fun x => x.voted_up).length,
             ((r :: rs).filter fun x => !x.voted_up).length,
             totalPositive table', totalNegative table', first_run⟩, table')

/-! ## Discussion fetcher (app/main.py) -/

/-- One scraped discussion; gid_discussion = "" models a dict without a
truthy gid. -/
structure Discussion where
  gid_discussion : String
  title : String
  is_pinned : Bool
deriving Repr, DecidableEq

/-- The dict returned by fetch_and_process_discussions. -/
structure DiscussionsResult where
  new_count : Nat
  discussions : List Discussion
  is_first_run : Bool
deriving Repr, DecidableEq

/-- The discussions table, keyed by gid_discussion (primary key). -/
abbrev DiscussionsTable := List Discussion

/-- Membership test backing get_existing_discussion_ids. -/
def existsDiscussion (table : DiscussionsTable) (gid : String) : Bool :=
  table.any fun d => d.gid_discussion = gid

/-- Python insert_discussions: INSERT OR IGNORE each discussion in order. -/
def insert_discussions (table : DiscussionsTable) (new_discussions : List Discussion) :
    DiscussionsTable :=
  new_discussions.foldl
    (fun t d => if existsDiscussion t d.gid_discussion then t else t ++ [d]) table

/-- Membership test of the new_discussions list comprehension. -/
def newDiscussionPred (table : DiscussionsTable) (d : Discussion) : Bool :=
  d.gid_discussion ≠ "" && !(existsDiscussion table d.gid_discussion)

/-- Python fetch_and_process_discussions, with the scraped snapshot
(None = fetch failed) and the discussions table passed explicitly.  An
empty snapshot returns new_count 0 with is_first_run hard-coded to False;
so does a snapshot with no new discussions.  Otherwise new discussions
are inserted, pinned ones are filtered from the notification list, and
is_first_run reflects the pre-call table. -/
def fetch_and_process_discussions (snapshot : Option (List Discussion))
    (table : DiscussionsTable) : Option DiscussionsResult × DiscussionsTable :=
  match snapshot with
  | none => (none, table)
  | some ds =>
    match ds with
    | [] => (some ⟨0, [], false⟩, table)
    | _ :: _ =>
      let first_run := decide (table.length = 0)
      match ds.filter (newDiscussionPred table) with
      | [] => (some ⟨0, [], false⟩, table)
      | d :: dsNew =>
        let table' := insert_discussions table (d :: dsNew)
        let unpinned := (d :: dsNew).filter fun x => !x.is_pinned
        (some ⟨unpinned.length, unpinned.take 10, first_run⟩, table')

/-! ## Helper lemmas about review insertion -/

theorem existsReview_append (table : ReviewsTable) (r : Review) (id : String) :
    existsReview (table ++ [r]) id =
      (existsReview table id || decide (r.recommendationid = id)) := by
  simp [existsReview, List.any_append]

theorem existsReview_insert_reviews (l : List Review) :
    ∀ (table : ReviewsTable) (id : String),
      existsReview (insert_reviews table l) id =
        (existsReview table id || l.any fun r => r.recommendationid = id) := by
  induction l with
  | nil => intro table id; simp [insert_reviews]
  | cons r rest ih =>
    intro table id
    show existsReview (insert_reviews
      (if existsReview table r.recommendationid then table else table ++ [r]) rest) id = _
    by_cases hr : existsReview table r.recommendationid = true
    · rw [if_pos hr, ih]
      by_cases hid : r.recommendationid = id
      · subst hid; simp [hr]
      · simp [hid]
    · rw [if_neg hr, ih, existsReview_append]
      simp [Bool.or_assoc]

theorem fetch_reviews_all_seen_after (snapshot : List Review) (table : ReviewsTable) :
    ∀ r ∈ snapshot, r.recommendationid ≠ "" →
      existsReview (fetch_and_process_reviews snapshot table).2 r.recommendationid = true := by
  intro r hr hid
  match snapshot with
  | [] => cases hr
  | s :: ss =>
    rcases hn : (s :: ss).filter (newReviewPred table) with _ | ⟨a, as⟩
    · have htab : (fetch_and_process_reviews (s :: ss) table).2 = table := by
        simp only [fetch_and_process_reviews]
        rw [hn]
      rw [htab]
      have hnot := (List.filter_eq_nil_iff.mp hn) r hr
      by_cases hex : existsReview table r.recommendationid = true
      · exact hex
      · exfalso
        apply hnot
        have hfalse : existsReview table r.recommendationid = false := by
          simpa using hex
        simp [newReviewPred, hid, hfalse]
    · have htab : (fetch_and_process_reviews (s :: ss) table).2 =
          insert_reviews table (a :: as) := by
        simp only [fetch_and_process_reviews]
        rw [hn]
      rw [htab, ← hn, existsReview_insert_reviews]
      by_cases hex : existsReview table r.recommendationid = true
      · simp [hex]
      · have hfalse : existsReview table r.recommendationid = false := by
          simpa using hex
        have hmem : r ∈ (s :: ss).filter (newReviewPred table) :=
          List.mem_filter.mpr ⟨hr, by simp [newReviewPred, hid, hfalse]⟩
        have : ((s :: ss).filter (newReviewPred table)).any
            (fun x => x.recommendationid = r.recommendationid) = true :=
          List.any_eq_true.mpr ⟨r, hmem, by simp⟩
        simp [this]

theorem fetch_reviews_filter_nil (s : Review) (ss : List Review) (table : ReviewsTable)
    (hfil : (s :: ss).filter (newReviewPred table) = []) :
    fetch_and_process_reviews (s :: ss) table =
      (some ⟨0, 0, totalPositive table, totalNegative table, false⟩, table) := by
  simp only [fetch_and_process_reviews]
  rw [hfil]

/-- C1: processing the same snapshot twice in a row yields no new items
on the second call — for the RSS fetcher the second item list is empty,
and for the review fetcher the second call reports zero new positive and
zero new negative reviews. -/
theorem second_fetch_sees_nothing_new :
    (∀ (name : String) (m : Nat) (entries : List RssEntry) (table : List RssSeenRow),
      (fetch_rss_feed name m entries (fetch_rss_feed name m entries table).2).1 = [])
    ∧ (∀ (snapshot : List Review) (table : ReviewsTable) (st : ReviewStats),
        (fetch_and_process_reviews snapshot
            (fetch_and_process_reviews snapshot table).2).1 = some st →
        st.new_positive = 0 ∧ st.new_negative = 0) := by
  constructor
  · intro name m entries table
    unfold fetch_rss_feed
    exact fetch_rss_feed_go_nil_of_seen name (entries.take m) _
      (fun e he hl => fetch_rss_feed_go_link_seen name (entries.take m) table e he hl)
  · intro snapshot table st h
    match snapshot with
    | [] => simp [fetch_and_process_reviews] at h
    | s :: ss =>
      have hfil : (s :: ss).filter
          (newReviewPred (fetch_and_process_reviews (s :: ss) table).2) = [] := by
        apply List.filter_eq_nil_iff.mpr
        intro r hr
        by_cases hid : r.recommendationid = ""
        · simp [newReviewPred, hid]
        · have := fetch_reviews_all_seen_after (s :: ss) table r hr hid
          simp [newReviewPred, this]
      rw [fetch_reviews_filter_nil s ss _ hfil] at h
      have hst : st = ⟨0, 0, totalPositive (fetch_and_process_reviews (s :: ss) table).2,
          totalNegative (fetch_and_process_reviews (s :: ss) table).2, false⟩ := by
        simpa using h.symm
      rw [hst]
      exact ⟨rfl, rfl⟩

/-- Witness for C1 at a concrete snapshot: a two-entry RSS feed and a
two-review snapshot, each fetched twice starting from an empty store. -/
theorem second_fetch_sees_nothing_new_witness :
    (fetch_rss_feed "gamedev_news" 50 [⟨"t1", "u1"⟩, ⟨"t2", "u2"⟩]
        (fetch_rss_feed "gamedev_news" 50 [⟨"t1", "u1"⟩, ⟨"t2", "u2"⟩] []).2).1 = []
    ∧ (⟨0, 0, 1, 1, false⟩ : ReviewStats).new_positive = 0
    ∧ (⟨0, 0, 1, 1, false⟩ : ReviewStats).new_negative = 0 :=
  ⟨second_fetch_sees_nothing_new.1 "gamedev_news" 50 [⟨"t1", "u1"⟩, ⟨"t2", "u2"⟩] [],
   second_fetch_sees_nothing_new.2 [⟨"r1", true⟩, ⟨"r2", false⟩] [] ⟨0, 0, 1, 1, false⟩
     (by decide)⟩

/-! ## Helper lemmas about the latest-date selection -/

theorem foldl_max_mem (l : List Nat) : ∀ a, l.foldl max a ∈ a :: l := by
  induction l with
  | nil => intro a; simp
  | cons x xs ih =>
    intro a
    rw [List.foldl_cons]
    rcases List.mem_cons.mp (ih (max a x)) with h1 | h2
    · rcases max_choice a x with hm | hm <;> rw [h1, hm] <;> simp
    · exact List.mem_cons_of_mem a (List.mem_cons_of_mem x h2)

theorem le_foldl_max (l : List Nat) : ∀ a x, x ∈ a :: l → x ≤ l.foldl max a := by
  induction l with
  | nil =>
    intro a x hx
    simp only [List.mem_singleton] at hx
    simp [hx]
  | cons y ys ih =>
    intro a x hx
    rw [List.foldl_cons]
    rcases List.mem_cons.mp hx with rfl | h
    · exact le_trans (Nat.le_max_left x y)
        (ih (max x y) (max x y) (List.mem_cons_self _ _))
    · rcases List.mem_cons.mp h with rfl | h2
      · exact le_trans (Nat.le_max_right a x)
          (ih (max a x) (max a x) (List.mem_cons_self _ _))
      · exact ih (max a y) x (List.mem_cons_of_mem _ h2)

theorem latest_date_mem (dates : List Nat) (h : dates ≠ []) : latest_date dates ∈ dates := by
  match dates with
  | [] => exact absurd rfl h
  | d :: ds =>
    unfold latest_date
    rw [List.foldl_cons, Nat.zero_max]
    exact foldl_max_mem ds d

theorem le_latest_date (dates : List Nat) (x : Nat) (hx : x ∈ dates) :
    x ≤ latest_date dates := by
  match dates with
  | [] => cases hx
  | d :: ds =>
    unfold latest_date
    rw [List.foldl_cons, Nat.zero_max]
    exact le_foldl_max ds d x hx

/-- C2 (amended): the rank-delta calculation uses as its previous set
exactly the snapshot of the single most recent date among the available
snapshots — never a blend of multiple days — but that date may be today's
own (on a same-day re-run after today's rankings were stored) rather than
a date strictly before today: computing against just the maximal-dated
snapshot yields the identical output. -/
theorem calculate_rank_changes_single_latest_day (current : List RankedGame)
    (prevs : RankingsByDate) (h : prevs ≠ []) :
    ∃ d ∈ prevs.map Prod.fst,
      (∀ d' ∈ prevs.map Prod.fst, d' ≤ d) ∧
      calculate_rank_changes current prevs =
        calculate_rank_changes current [(d, dayAt prevs d)] := by
  match prevs with
  | [] => exact absurd rfl h
  | p :: ps =>
    refine ⟨latest_date ((p :: ps).map Prod.fst), latest_date_mem _ (by simp),
      fun d' hd' => le_latest_date _ _ hd', ?_⟩
    simp only [calculate_rank_changes]
    have hsel : dayAt [(latest_date ((p :: ps).map Prod.fst),
        dayAt (p :: ps) (latest_date ((p :: ps).map Prod.fst)))]
        (latest_date ([(latest_date ((p :: ps).map Prod.fst),
          dayAt (p :: ps) (latest_date ((p :: ps).map Prod.fst)))].map Prod.fst)) =
        dayAt (p :: ps) (latest_date ((p :: ps).map Prod.fst)) := by
      simp [dayAt, latest_date, List.find?]
    rw [hsel]

/-- Witness for C2 (amended) at a concrete store: snapshots for two dates
736 and 737, where 737 is also the maximal (same-day) date. -/
theorem calculate_rank_changes_single_latest_day_witness :
    ∃ d ∈ ([(736, [(7, ⟨"g", 10⟩)]), (737, [(7, ⟨"g", 3⟩)])] : RankingsByDate).map Prod.fst,
      (∀ d' ∈ ([(736, [(7, ⟨"g", 10⟩)]), (737, [(7, ⟨"g", 3⟩)])] : RankingsByDate).map Prod.fst,
        d' ≤ d) ∧
      calculate_rank_changes [⟨7, "g", 1, none⟩]
          [(736, [(7, ⟨"g", 10⟩)]), (737, [(7, ⟨"g", 3⟩)])] =
        calculate_rank_changes [⟨7, "g", 1, none⟩]
          [(d, dayAt [(736, [(7, ⟨"g", 10⟩)]), (737, [(7, ⟨"g", 3⟩)])] d)] :=
  calculate_rank_changes_single_latest_day [⟨7, "g", 1, none⟩]
    [(736, [(7, ⟨"g", 10⟩)]), (737, [(7, ⟨"g", 3⟩)])] (by decide)

/-- Counterexample to C2 as stated: with today's rankings already stored
(date 737 = today, alongside date 736), the code's previous set is
today's own snapshot (yielding rank_change 2), not the most recent date
strictly before today (which would yield rank_change 9). -/
theorem calculate_rank_changes_uses_today_counterexample :
    calculate_rank_changes [⟨7, "g", 1, none⟩]
        [(736, [(7, ⟨"g", 10⟩)]), (737, [(7, ⟨"g", 3⟩)])] = [⟨7, "g", 1, some 2⟩]
    ∧ computeDeltas_strictlyBefore 737 [⟨7, "g", 1, none⟩]
        [(736, [(7, ⟨"g", 10⟩)]), (737, [(7, ⟨"g", 3⟩)])] = [⟨7, "g", 1, some 9⟩]
    ∧ calculate_rank_changes [⟨7, "g", 1, none⟩]
        [(736, [(7, ⟨"g", 10⟩)]), (737, [(7, ⟨"g", 3⟩)])] ≠
      computeDeltas_strictlyBefore 737 [⟨7, "g", 1, none⟩]
        [(736, [(7, ⟨"g", 10⟩)]), (737, [(7, ⟨"g", 3⟩)])] := by
  refine ⟨by decide, by decide, by decide⟩

/-- Per-game delta update of calculate_rank_changes: present in the
previous snapshot means rank_change = previous_rank - current_rank,
absent means rank_change = None. -/
def applyDelta (previous : DayRankings) (game : RankedGame) : RankedGame :=
  match lookupRank previous game.appid with
  | some pe => { game with rank_change := some ((pe.rank : Int) - (game.rank : Int)) }
  | none => { game with rank_change := none }

/-- C7: for every current list and non-empty previous store, each item
present in the selected previous snapshot gets
rank_change = previous_rank - current_rank, and each absent item gets
rank_change = None; in particular the spec's end-to-end example holds. -/
theorem rank_delta_formula :
    (∀ (current : List RankedGame) (prevs : RankingsByDate), prevs ≠ [] →
      calculate_rank_changes current prevs =
        current.map (applyDelta (dayAt prevs (latest_date (prevs.map Prod.fst)))))
    ∧ calculate_rank_changes [⟨5, "a", 1, none⟩, ⟨7, "b", 2, none⟩]
        [(1, [(5, ⟨"a", 3⟩)])] = [⟨5, "a", 1, some 2⟩, ⟨7, "b", 2, none⟩] := by
  constructor
  · intro current prevs h
    match prevs with
    | [] => exact absurd rfl h
    | p :: ps => rfl
  · decide

/-- Witness for C7 at the spec's end-to-end example input. -/
theorem rank_delta_formula_witness :
    calculate_rank_changes [⟨5, "a", 1, none⟩, ⟨7, "b", 2, none⟩] [(1, [(5, ⟨"a", 3⟩)])] =
      ([⟨5, "a", 1, none⟩, ⟨7, "b", 2, none⟩] : List RankedGame).map
        (applyDelta (dayAt [(1, [(5, ⟨"a", 3⟩)])]
          (latest_date (([(1, [(5, ⟨"a", 3⟩)])] : RankingsByDate).map Prod.fst)))) :=
  rank_delta_formula.1 [⟨5, "a", 1, none⟩, ⟨7, "b", 2, none⟩] [(1, [(5, ⟨"a", 3⟩)])]
    (by decide)

/-! ## Stage Runner (services/orchestrator/orchestrator.py, run_service) -/

/-- Outcome of one subprocess.run attempt: exit 0 with a measured
duration, a non-zero exit code with a measured duration, a
subprocess.TimeoutExpired, or another raised exception. -/
inductive AttemptOutcome where
  | success (duration : Nat)
  | exitFail (code : Nat) (duration : Nat)
  | timeout
  | exn (msg : String)
deriving Repr, DecidableEq

/-- The (success, duration, error) triple returned by run_service. -/
structure RunResult where
  success : Bool
  duration : Nat
  error : Option String
deriving Repr, DecidableEq

def isSuccess : AttemptOutcome → Bool
  | .success _ => true
  | _ => false

def isExitFail : AttemptOutcome → Bool
  | .exitFail _ _ => true
  | _ => false

/-- Error string of the non-zero exit branch. -/
def exitFailMsg (name : String) (code : Nat) : String :=
  name ++ " failed with exit code " ++ toString code

/-- Error string of the TimeoutExpired branch. -/
def timeoutMsg (name : String) : String :=
  name ++ " timed out after 10 minutes"

/-- Error string of the generic exception branch. -/
def exnMsg (name : String) (m : String) : String :=
  name ++ " failed: " ++ m

/-- The RunResult returned when the final attempt ends with the given
outcome: exit failure reports the measured duration, a timeout reports
the 600-second ceiling, an exception reports duration 0. -/
def failResult (name : String) : AttemptOutcome → RunResult
  | .success d => ⟨true, d, none⟩
  | .exitFail code d => ⟨false, d, some (exitFailMsg name code)⟩
  | .timeout => ⟨false, 600, some (timeoutMsg name)⟩
  | .exn m => ⟨false, 0, some (exnMsg name m)⟩

/-- Result of run_service together with its observable attempt trace:
how many attempts ran and which backoff sleeps were performed between
them. -/
structure ServiceRun where
  result : RunResult
  attempts : Nat
  sleeps : List Nat
deriving Repr, DecidableEq

/-- The retry loop of run_service, at a given 1-based attempt number with
the given number of loop iterations left.  Only the non-zero-exit branch
sleeps 2 ^ attempt before retrying; the timeout and exception branches
retry immediately. -/
def run_service_go (name : String) (outc : Nat → AttemptOutcome) (attempt : Nat) :
    Nat → ServiceRun
  | 0 => ⟨⟨false, 0, some "Max retries exceeded"⟩, 0, []⟩
  | remaining + 1 =>
    match outc attempt with
    | .success d => ⟨⟨true, d, none⟩, 1, []⟩
    | .exitFail code d =>
      if remaining = 0 then ⟨⟨false, d, some (exitFailMsg name code)⟩, 1, []⟩
      else
        let r := run_service_go name outc (attempt + 1) remaining
        ⟨r.result, r.attempts + 1, 2 ^ attempt :: r.sleeps⟩
    | .timeout =>
      if remaining = 0 then ⟨⟨false, 600, some (timeoutMsg name)⟩, 1, []⟩
      else
        let r := run_service_go name outc (attempt + 1) remaining
        ⟨r.result, r.attempts + 1, r.sleeps⟩
    | .exn m =>
      if remaining = 0 then ⟨⟨false, 0, some (exnMsg name m)⟩, 1, []⟩
      else
        let r := run_service_go name outc (attempt + 1) remaining
        ⟨r.result, r.attempts + 1, r.sleeps⟩

/-- Python run_service: for attempt in range(1, max_retries + 1). -/
def run_service (name : String) (outc : Nat → AttemptOutcome) (max_retries : Nat) :
    ServiceRun :=
  run_service_go name outc 1 max_retries

/-! ## Helper lemmas about run_service -/

theorem run_service_go_attempts_pos (name : String) (outc : Nat → AttemptOutcome)
    (attempt remaining : Nat) :
    1 ≤ (run_service_go name outc attempt (remaining + 1)).attempts := by
  show 1 ≤ (run_service_go name outc attempt (remaining + 1)).attempts
  unfold run_service_go
  cases outc attempt with
  | success d => simp
  | exitFail code d =>
    by_cases h : remaining = 0 <;> simp [h]
  | timeout =>
    by_cases h : remaining = 0 <;> simp [h]
  | exn m =>
    by_cases h : remaining = 0 <;> simp [h]

theorem run_service_go_success (name : String) (outc : Nat → AttemptOutcome) :
    ∀ (k a fuel d : Nat), k < fuel →
      (∀ i < k, isSuccess (outc (a + i)) = false) →
      outc (a + k) = .success d →
      (run_service_go name outc a fuel).result = ⟨true, d, none⟩
      ∧ (run_service_go name outc a fuel).attempts = k + 1 := by
  intro k
  induction k with
  | zero =>
    intro a fuel d hk _ hsucc
    match fuel, hk with
    | remaining + 1, _ =>
      rw [Nat.add_zero] at hsucc
      unfold run_service_go
      rw [hsucc]
      exact ⟨rfl, rfl⟩
  | succ k ih =>
    intro a fuel d hk hfail hsucc
    match fuel, hk with
    | remaining + 1, hk =>
      have hrem : remaining ≠ 0 := by omega
      have h0 : isSuccess (outc a) = false := by
        have := hfail 0 (Nat.succ_pos k)
        simpa using this
      have hrec := ih (a + 1) remaining d (by omega)
        (fun i hi => by
          have := hfail (i + 1) (by omega)
          simpa [Nat.add_assoc, Nat.add_comm 1 i] using this)
        (by simpa [Nat.add_assoc, Nat.add_comm 1 k] using hsucc)
      unfold run_service_go
      cases ho : outc a with
      | success d' => rw [ho] at h0; simp [isSuccess] at h0
      | exitFail code dd => simp only [if_neg hrem]; exact ⟨hrec.1, by rw [hrec.2]⟩
      | timeout => simp only [if_neg hrem]; exact ⟨hrec.1, by rw [hrec.2]⟩
      | exn m => simp only [if_neg hrem]; exact ⟨hrec.1, by rw [hrec.2]⟩

theorem run_service_go_all_fail (name : String) (outc : Nat → AttemptOutcome) :
    ∀ (fuel a : Nat), 1 ≤ fuel → (∀ i, isSuccess (outc i) = false) →
      (run_service_go name outc a fuel).result = failResult name (outc (a + fuel - 1))
      ∧ (run_service_go name outc a fuel).attempts = fuel := by
  intro fuel
  induction fuel with
  | zero => intro a h; omega
  | succ remaining ih =>
    intro a _ hfail
    unfold run_service_go
    rcases Nat.eq_zero_or_pos remaining with hrem | hrem
    · subst hrem
      have ha : a + 1 - 1 = a := by omega
      rw [ha]
      cases ho : outc a with
      | success d => have := hfail a; rw [ho] at this; simp [isSuccess] at this
      | exitFail code d => exact ⟨rfl, rfl⟩
      | timeout => exact ⟨rfl, rfl⟩
      | exn m => exact ⟨rfl, rfl⟩
    · have hrem' : remaining ≠ 0 := by omega
      have hrec := ih (a + 1) hrem hfail
      have hidx : a + 1 + remaining - 1 = a + (remaining + 1) - 1 := by omega
      rw [hidx] at hrec
      cases ho : outc a with
      | success d => have := hfail a; rw [ho] at this; simp [isSuccess] at this
      | exitFail code d => simp only [if_neg hrem']; exact ⟨hrec.1, by rw [hrec.2]⟩
      | timeout => simp only [if_neg hrem']; exact ⟨hrec.1, by rw [hrec.2]⟩
      | exn m => simp only [if_neg hrem']; exact ⟨hrec.1, by rw [hrec.2]⟩

theorem run_service_go_sleeps (name : String) (outc : Nat → AttemptOutcome) :
    ∀ (fuel a : Nat),
      (run_service_go name outc a fuel).sleeps =
        ((List.range' a ((run_service_go name outc a fuel).attempts - 1)).filter
          fun i => isExitFail (outc i)).map (fun i => 2 ^ i) := by
  intro fuel
  induction fuel with
  | zero => intro a; simp [run_service_go]
  | succ remaining ih =>
    intro a
    unfold run_service_go
    cases ho : outc a with
    | success d => simp
    | exitFail code d =>
      rcases Nat.eq_zero_or_pos remaining with hrem | hrem
      · subst hrem; simp
      · have hrem' : remaining ≠ 0 := by omega
        simp only [if_neg hrem']
        obtain ⟨m, hm⟩ : ∃ m, (run_service_go name outc (a + 1) remaining).attempts = m + 1 := by
          match remaining, hrem with
          | r + 1, _ => exact ⟨_, (Nat.succ_pred_eq_of_pos
              (run_service_go_attempts_pos name outc (a + 1) r)).symm⟩
        show 2 ^ a :: (run_service_go name outc (a + 1) remaining).sleeps = _
        rw [ih (a + 1), hm]
        simp only [Nat.add_sub_cancel, List.range'_succ]
        rw [List.filter_cons_of_pos (by simp [isExitFail, ho])]
        simp
    | timeout =>
      rcases Nat.eq_zero_or_pos remaining with hrem | hrem
      · subst hrem; simp
      · have hrem' : remaining ≠ 0 := by omega
        simp only [if_neg hrem']
        obtain ⟨m, hm⟩ : ∃ m, (run_service_go name outc (a + 1) remaining).attempts = m + 1 := by
          match remaining, hrem with
          | r + 1, _ => exact ⟨_, (Nat.succ_pred_eq_of_pos
              (run_service_go_attempts_pos name outc (a + 1) r)).symm⟩
        show (run_service_go name outc (a + 1) remaining).sleeps = _
        rw [ih (a + 1), hm]
        simp only [Nat.add_sub_cancel, List.range'_succ]
        rw [List.filter_cons_of_neg (by simp [isExitFail, ho])]
    | exn m =>
      rcases Nat.eq_zero_or_pos remaining with hrem | hrem
      · subst hrem; simp
      · have hrem' : remaining ≠ 0 := by omega
        simp only [if_neg hrem']
        obtain ⟨mm, hm⟩ : ∃ mm, (run_service_go name outc (a + 1) remaining).attempts = mm + 1 := by
          match remaining, hrem with
          | r + 1, _ => exact ⟨_, (Nat.succ_pred_eq_of_pos
              (run_service_go_attempts_pos name outc (a + 1) r)).symm⟩
        show (run_service_go name outc (a + 1) remaining).sleeps = _
        rw [ih (a + 1), hm]
        simp only [Nat.add_sub_cancel, List.range'_succ]
        rw [List.filter_cons_of_neg (by simp [isExitFail, ho])]

/-- C6: a command that fails on its first N attempts and then succeeds
returns success = true after exactly N + 1 attempts whenever
maxRetries ≥ N + 1; a command that always fails with maxRetries = R makes
exactly R attempts, returns success = false, and returns the last
attempt's error message. -/
theorem run_service_attempt_counts (name : String) :
    (∀ (outc : Nat → AttemptOutcome) (N R d : Nat),
      (∀ i < N, isSuccess (outc (1 + i)) = false) →
      outc (1 + N) = .success d → N + 1 ≤ R →
      (run_service name outc R).result.success = true
      ∧ (run_service name outc R).attempts = N + 1)
    ∧ (∀ (outc : Nat → AttemptOutcome) (R : Nat), 1 ≤ R →
      (∀ i, isSuccess (outc i) = false) →
      (run_service name outc R).attempts = R
      ∧ (run_service name outc R).result.success = false
      ∧ (run_service name outc R).result.error = (failResult name (outc R)).error) := by
  constructor
  · intro outc N R d hfail hsucc hNR
    have h := run_service_go_success name outc N 1 R d (by omega) hfail hsucc
    exact ⟨by rw [show (run_service name outc R).result = _ from h.1], h.2⟩
  · intro outc R hR hfail
    have h := run_service_go_all_fail name outc R 1 hR hfail
    have hidx : 1 + R - 1 = R := by omega
    rw [hidx] at h
    refine ⟨h.2, ?_, ?_⟩
    · rw [show (run_service name outc R).result = _ from h.1]
      cases ho : outc R with
      | success d => have := hfail R; rw [ho] at this; simp [isSuccess] at this
      | exitFail code d => rfl
      | timeout => rfl
      | exn m => rfl
    · rw [show (run_service name outc R).result = _ from h.1]

/-- Witness for C6: a command failing twice with exit code 1 and then
succeeding, run with maxRetries = 3; and a command that always times out,
run with maxRetries = 4. -/
theorem run_service_attempt_counts_witness :
    ((run_service "collector" (fun i => if i ≤ 2 then .exitFail 1 7 else .success 5) 3).result.success = true
      ∧ (run_service "collector" (fun i => if i ≤ 2 then .exitFail 1 7 else .success 5) 3).attempts = 2 + 1)
    ∧ ((run_service "collector" (fun _ => .timeout) 4).attempts = 4
      ∧ (run_service "collector" (fun _ => .timeout) 4).result.success = false
      ∧ (run_service "collector" (fun _ => .timeout) 4).result.error =
          (failResult "collector" ((fun _ => AttemptOutcome.timeout) 4)).error) :=
  ⟨(run_service_attempt_counts "collector").1
      (fun i => if i ≤ 2 then .exitFail 1 7 else .success 5) 2 3 5
      (by decide) (by decide) (by decide),
   (run_service_attempt_counts "collector").2 (fun _ => .timeout) 4
      (by decide) (fun _ => rfl)⟩

/-- Counterexample to C5 as stated: a stage that times out on its first
two attempts and succeeds on the third performs no backoff sleep at all,
whereas the claim requires waits of 2^1 = 2 and 2^2 = 4 seconds between
the consecutive failed attempts. -/
theorem backoff_skipped_on_timeout_counterexample :
    (run_service "collector" (fun i => if i ≤ 2 then .timeout else .success 5) 3).sleeps = []
    ∧ ([] : List Nat) ≠ [2, 4] :=
  ⟨by decide, by decide⟩

/-- C5 (amended): between consecutive failed attempts the runner waits
2 ^ attempt seconds only after a non-zero-exit failure (so 2 seconds
after a first exit-code failure); after a timeout or exception failure it
retries immediately with no wait; and a run whose final attempt times out
reports its duration as the 600-second timeout ceiling. -/
theorem run_service_backoff (name : String) (outc : Nat → AttemptOutcome) (R : Nat) :
    (run_service name outc R).sleeps =
      ((List.range' 1 ((run_service name outc R).attempts - 1)).filter
        fun i => isExitFail (outc i)).map (fun i => 2 ^ i)
    ∧ ((∀ i, isSuccess (outc i) = false) → 1 ≤ R → outc R = .timeout →
        (run_service name outc R).result.duration = 600) := by
  constructor
  · exact run_service_go_sleeps name outc R 1
  · intro hfail hR hto
    have h := run_service_go_all_fail name outc R 1 hR hfail
    have hidx : 1 + R - 1 = R := by omega
    rw [hidx] at h
    rw [show (run_service name outc R).result = _ from h.1, hto]
    rfl

/-- Witness for C5 (amended): one exit-code failure then success shows
the single 2-second backoff; an always-timing-out command with
maxRetries = 2 shows the 600-second reported duration. -/
theorem run_service_backoff_witness :
    (run_service "writer" (fun i => if i = 1 then .exitFail 2 9 else .success 4) 3).sleeps =
      ((List.range' 1 ((run_service "writer"
          (fun i => if i = 1 then .exitFail 2 9 else .success 4) 3).attempts - 1)).filter
        fun i => isExitFail ((fun i => if i = 1 then .exitFail 2 9 else .success 4) i)).map
          (fun i => 2 ^ i)
    ∧ (run_service "writer" (fun _ => AttemptOutcome.timeout) 2).result.duration = 600 :=
  ⟨(run_service_backoff "writer" (fun i => if i = 1 then .exitFail 2 9 else .success 4) 3).1,
   (run_service_backoff "writer" (fun _ => AttemptOutcome.timeout) 2).2
     (fun _ => rfl) (by decide) rfl⟩

/-! ## Pipeline Sequencer (services/orchestrator/orchestrator.py, run_pipeline) -/

/-- One row appended to the executions table by log_execution. -/
structure LogRecord where
  stage : String
  status : String
  duration : Option Nat
  error : Option String
deriving Repr, DecidableEq

/-- One Discord webhook message: notify_success carries the total
duration, notify_failure names the stage and carries its error. -/
inductive PipeNotification where
  | success (duration : Nat)
  | failure (stage : String) (error : Option String)
deriving Repr, DecidableEq

/-- Terminal outcome of run_pipeline: the non-failure returns (the
idempotent skip and the full success) are Complete, each early failure
return is Failed with the stage and error that notify_failure received. -/
inductive PipeOutcome where
  | Complete
  | Failed (stage : String) (error : Option String)
deriving Repr, DecidableEq

/-- Observable trace of one run_pipeline call. -/
structure PipelineTrace where
  stagesInvoked : List String
  logs : List LogRecord
  notifications : List PipeNotification
  outcome : PipeOutcome
deriving Repr, DecidableEq

/-- Environment of one run_pipeline call: whether today's episode file
already exists, the run_service result for each stage, and the
validate_file_exists verdict for each declared output artifact. -/
structure PipelineEnv where
  episodeExists : Bool
  collector : RunResult
  writer : RunResult
  publisher : RunResult
  signalsValid : Bool
  scriptValid : Bool
  episodeValid : Bool
  feedValid : Bool
deriving Repr, DecidableEq

/-- Python "success" / "failure" status strings of log_execution calls. -/
def statusStr (b : Bool) : String :=
  if b then "success" else "failure"

/-- Python run_pipeline as a trace transformer: early return if the
episode exists; otherwise run collector, writer, publisher in order, log
each run_service result, halt with a failure log and notification on the
first unsuccessful stage or failed artifact validation, and log the
"pipeline" success record plus success notification at the end. -/
def run_pipeline (env : PipelineEnv) (totalDuration : Nat) : PipelineTrace :=
  if env.episodeExists then
    ⟨[], [], [], .Complete⟩
  else
    let logC : LogRecord :=
      ⟨"collector", statusStr env.collector.success, some env.collector.duration,
        env.collector.error⟩
    if env.collector.success = false then
      ⟨["collector"], [logC], [.failure "collector" env.collector.error],
        .Failed "collector" env.collector.error⟩
    else if env.signalsValid = false then
      ⟨["collector"],
        [logC, ⟨"collector", "failure", some env.collector.duration,
          some "Collector did not produce valid signals.json"⟩],
        [.failure "collector" (some "Collector did not produce valid signals.json")],
        .Failed "collector" (some "Collector did not produce valid signals.json")⟩
    else
      let logW : LogRecord :=
        ⟨"writer", statusStr env.writer.success, some env.writer.duration, env.writer.error⟩
      if env.writer.success = false then
        ⟨["collector", "writer"], [logC, logW], [.failure "writer" env.writer.error],
          .Failed "writer" env.writer.error⟩
      else if env.scriptValid = false then
        ⟨["collector", "writer"],
          [logC, logW, ⟨"writer", "failure", some env.writer.duration,
            some "Writer did not produce valid script"⟩],
          [.failure "writer" (some "Writer did not produce valid script")],
          .Failed "writer" (some "Writer did not produce valid script")⟩
      else
        let logP : LogRecord :=
          ⟨"publisher", statusStr env.publisher.success, some env.publisher.duration,
            env.publisher.error⟩
        if env.publisher.success = false then
          ⟨["collector", "writer", "publisher"], [logC, logW, logP],
            [.failure "publisher" env.publisher.error],
            .Failed "publisher" env.publisher.error⟩
        else if env.episodeValid = false then
          ⟨["collector", "writer", "publisher"],
            [logC, logW, logP, ⟨"publisher", "failure", some env.publisher.duration,
              some "Publisher did not produce episode MP3"⟩],
            [.failure "publisher" (some "Publisher did not produce episode MP3")],
            .Failed "publisher" (some "Publisher did not produce episode MP3")⟩
        else if env.feedValid = false then
          ⟨["collector", "writer", "publisher"],
            [logC, logW, logP, ⟨"publisher", "failure", some env.publisher.duration,
              some "Publisher did not update RSS feed"⟩],
            [.failure "publisher" (some "Publisher did not update RSS feed")],
            .Failed "publisher" (some "Publisher did not update RSS feed")⟩
        else
          ⟨["collector", "writer", "publisher"],
            [logC, logW, logP, ⟨"pipeline", "success", some totalDuration, none⟩],
            [.success totalDuration], .Complete⟩

/-- Stages that run strictly after the given stage in the pipeline
order. -/
def laterStages : String → List String
  | "collector" => ["writer", "publisher"]
  | "writer" => ["publisher"]
  | _ => []

/-- C3: if today's episode file already exists before the run starts, no
stage is invoked and the pipeline outcome is Complete immediately. -/
theorem pipeline_skip_when_episode_exists (env : PipelineEnv) (d : Nat)
    (h : env.episodeExists = true) :
    (run_pipeline env d).stagesInvoked = [] ∧ (run_pipeline env d).outcome = .Complete := by
  simp [run_pipeline, h]

/-- Witness for C3: a concrete environment whose episode file exists. -/
theorem pipeline_skip_when_episode_exists_witness :
    (run_pipeline ⟨true, ⟨true, 1, none⟩, ⟨true, 1, none⟩, ⟨true, 1, none⟩,
        true, true, true, true⟩ 0).stagesInvoked = []
    ∧ (run_pipeline ⟨true, ⟨true, 1, none⟩, ⟨true, 1, none⟩, ⟨true, 1, none⟩,
        true, true, true, true⟩ 0).outcome = .Complete :=
  pipeline_skip_when_episode_exists
    ⟨true, ⟨true, 1, none⟩, ⟨true, 1, none⟩, ⟨true, 1, none⟩, true, true, true, true⟩ 0 rfl

/-- C4: whenever some stage fails or a succeeding stage's declared output
artifact fails validation, the pipeline ends Failed at some stage s with
error e, emits exactly one failure notification naming s and e, appends a
failure log record for s, and invokes no stage later than s; validation
failures take the same halt-log-notify path as process failures. -/
theorem pipeline_halt_log_notify (env : PipelineEnv) (d : Nat)
    (hep : env.episodeExists = false)
    (hfail : env.collector.success = false ∨ env.signalsValid = false
      ∨ env.writer.success = false ∨ env.scriptValid = false
      ∨ env.publisher.success = false ∨ env.episodeValid = false ∨ env.feedValid = false) :
    ∃ s e, (run_pipeline env d).outcome = .Failed s e
      ∧ (run_pipeline env d).notifications = [.failure s e]
      ∧ (∃ dur, (⟨s, "failure", some dur, e⟩ : LogRecord) ∈ (run_pipeline env d).logs)
      ∧ ∀ s' ∈ laterStages s, s' ∉ (run_pipeline env d).stagesInvoked := by
  by_cases hc : env.collector.success = false
  · have ht : run_pipeline env d =
        ⟨["collector"],
          [⟨"collector", "failure", some env.collector.duration, env.collector.error⟩],
          [.failure "collector" env.collector.error],
          .Failed "collector" env.collector.error⟩ := by
      simp [run_pipeline, hep, hc, statusStr]
    rw [ht]
    refine ⟨"collector", env.collector.error, rfl, rfl,
      ⟨env.collector.duration, by simp⟩, (by { show ∀ s2 ∈ laterStages "collector", s2 ∉ ["collector"]; decide })⟩
  · have hc' : env.collector.success = true := by simpa using hc
    by_cases hs : env.signalsValid = false
    · have ht : run_pipeline env d =
          ⟨["collector"],
            [⟨"collector", "success", some env.collector.duration, env.collector.error⟩,
             ⟨"collector", "failure", some env.collector.duration,
               some "Collector did not produce valid signals.json"⟩],
            [.failure "collector" (some "Collector did not produce valid signals.json")],
            .Failed "collector" (some "Collector did not produce valid signals.json")⟩ := by
        simp [run_pipeline, hep, hc', hs, statusStr]
      rw [ht]
      refine ⟨"collector", some "Collector did not produce valid signals.json", rfl, rfl,
        ⟨env.collector.duration, by simp⟩, (by { show ∀ s2 ∈ laterStages "collector", s2 ∉ ["collector"]; decide })⟩
    · have hs' : env.signalsValid = true := by simpa using hs
      by_cases hw : env.writer.success = false
      · have ht : run_pipeline env d =
            ⟨["collector", "writer"],
              [⟨"collector", "success", some env.collector.duration, env.collector.error⟩,
               ⟨"writer", "failure", some env.writer.duration, env.writer.error⟩],
              [.failure "writer" env.writer.error],
              .Failed "writer" env.writer.error⟩ := by
          simp [run_pipeline, hep, hc', hs', hw, statusStr]
        rw [ht]
        refine ⟨"writer", env.writer.error, rfl, rfl,
          ⟨env.writer.duration, by simp⟩, (by { show ∀ s2 ∈ laterStages "writer", s2 ∉ ["collector", "writer"]; decide })⟩
      · have hw' : env.writer.success = true := by simpa using hw
        by_cases hscript : env.scriptValid = false
        · have ht : run_pipeline env d =
              ⟨["collector", "writer"],
                [⟨"collector", "success", some env.collector.duration, env.collector.error⟩,
                 ⟨"writer", "success", some env.writer.duration, env.writer.error⟩,
                 ⟨"writer", "failure", some env.writer.duration,
                   some "Writer did not produce valid script"⟩],
                [.failure "writer" (some "Writer did not produce valid script")],
                .Failed "writer" (some "Writer did not produce valid script")⟩ := by
            simp [run_pipeline, hep, hc', hs', hw', hscript, statusStr]
          rw [ht]
          refine ⟨"writer", some "Writer did not produce valid script", rfl, rfl,
            ⟨env.writer.duration, by simp⟩, (by { show ∀ s2 ∈ laterStages "writer", s2 ∉ ["collector", "writer"]; decide })⟩
        · have hscript' : env.scriptValid = true := by simpa using hscript
          by_cases hp : env.publisher.success = false
          · have ht : run_pipeline env d =
                ⟨["collector", "writer", "publisher"],
                  [⟨"collector", "success", some env.collector.duration, env.collector.error⟩,
                   ⟨"writer", "success", some env.writer.duration, env.writer.error⟩,
                   ⟨"publisher", "failure", some env.publisher.duration, env.publisher.error⟩],
                  [.failure "publisher" env.publisher.error],
                  .Failed "publisher" env.publisher.error⟩ := by
              simp [run_pipeline, hep, hc', hs', hw', hscript', hp, statusStr]
            rw [ht]
            refine ⟨"publisher", env.publisher.error, rfl, rfl,
              ⟨env.publisher.duration, by simp⟩, (by { show ∀ s2 ∈ laterStages "publisher", s2 ∉ ["collector", "writer", "publisher"]; decide })⟩
          · have hp' : env.publisher.success = true := by simpa using hp
            by_cases hev : env.episodeValid = false
            · have ht : run_pipeline env d =
                  ⟨["collector", "writer", "publisher"],
                    [⟨"collector", "success", some env.collector.duration, env.collector.error⟩,
                     ⟨"writer", "success", some env.writer.duration, env.writer.error⟩,
                     ⟨"publisher", "success", some env.publisher.duration, env.publisher.error⟩,
                     ⟨"publisher", "failure", some env.publisher.duration,
                       some "Publisher did not produce episode MP3"⟩],
                    [.failure "publisher" (some "Publisher did not produce episode MP3")],
                    .Failed "publisher" (some "Publisher did not produce episode MP3")⟩ := by
                simp [run_pipeline, hep, hc', hs', hw', hscript', hp', hev, statusStr]
              rw [ht]
              refine ⟨"publisher", some "Publisher did not produce episode MP3", rfl, rfl,
                ⟨env.publisher.duration, by simp⟩, (by { show ∀ s2 ∈ laterStages "publisher", s2 ∉ ["collector", "writer", "publisher"]; decide })⟩
            · have hev' : env.episodeValid = true := by simpa using hev
              by_cases hfv : env.feedValid = false
              · have ht : run_pipeline env d =
                    ⟨["collector", "writer", "publisher"],
                      [⟨"collector", "success", some env.collector.duration, env.collector.error⟩,
                       ⟨"writer", "success", some env.writer.duration, env.writer.error⟩,
                       ⟨"publisher", "success", some env.publisher.duration, env.publisher.error⟩,
                       ⟨"publisher", "failure", some env.publisher.duration,
                         some "Publisher did not update RSS feed"⟩],
                      [.failure "publisher" (some "Publisher did not update RSS feed")],
                      .Failed "publisher" (some "Publisher did not update RSS feed")⟩ := by
                  simp [run_pipeline, hep, hc', hs', hw', hscript', hp', hev', hfv, statusStr]
                rw [ht]
                refine ⟨"publisher", some "Publisher did not update RSS feed", rfl, rfl,
                  ⟨env.publisher.duration, by simp⟩, (by { show ∀ s2 ∈ laterStages "publisher", s2 ∉ ["collector", "writer", "publisher"]; decide })⟩
              · rcases hfail with h | h | h | h | h | h | h
                · exact absurd h hc
                · exact absurd h hs
                · exact absurd h hw
                · exact absurd h hscript
                · exact absurd h hp
                · exact absurd h hev
                · exact absurd h hfv

/-- Witness for C4: a concrete run whose writer stage fails. -/
theorem pipeline_halt_log_notify_witness :
    ∃ s e, (run_pipeline ⟨false, ⟨true, 3, none⟩, ⟨false, 9, some "writer failed with exit code 2"⟩,
          ⟨true, 1, none⟩, true, true, true, true⟩ 20).outcome = .Failed s e
      ∧ (run_pipeline ⟨false, ⟨true, 3, none⟩, ⟨false, 9, some "writer failed with exit code 2"⟩,
          ⟨true, 1, none⟩, true, true, true, true⟩ 20).notifications = [.failure s e]
      ∧ (∃ dur, (⟨s, "failure", some dur, e⟩ : LogRecord) ∈
          (run_pipeline ⟨false, ⟨true, 3, none⟩, ⟨false, 9, some "writer failed with exit code 2"⟩,
            ⟨true, 1, none⟩, true, true, true, true⟩ 20).logs)
      ∧ ∀ s' ∈ laterStages s, s' ∉
          (run_pipeline ⟨false, ⟨true, 3, none⟩, ⟨false, 9, some "writer failed with exit code 2"⟩,
            ⟨true, 1, none⟩, true, true, true, true⟩ 20).stagesInvoked :=
  pipeline_halt_log_notify
    ⟨false, ⟨true, 3, none⟩, ⟨false, 9, some "writer failed with exit code 2"⟩,
      ⟨true, 1, none⟩, true, true, true, true⟩ 20 rfl
    (Or.inr (Or.inr (Or.inl rfl)))

/-- C10: when a stage's process succeeds but its artifact validation
fails, the execution log of the halted run holds two records for that
stage in order — first status success, then status failure — both with
the same duration, the earlier success record still present. -/
theorem pipeline_validation_double_logs (env : PipelineEnv) (d : Nat)
    (hep : env.episodeExists = false) :
    (env.collector.success = true → env.signalsValid = false →
      (run_pipeline env d).logs =
        [⟨"collector", "success", some env.collector.duration, env.collector.error⟩,
         ⟨"collector", "failure", some env.collector.duration,
           some "Collector did not produce valid signals.json"⟩])
    ∧ (env.collector.success = true → env.signalsValid = true →
        env.writer.success = true → env.scriptValid = false →
      (run_pipeline env d).logs =
        [⟨"collector", "success", some env.collector.duration, env.collector.error⟩,
         ⟨"writer", "success", some env.writer.duration, env.writer.error⟩,
         ⟨"writer", "failure", some env.writer.duration,
           some "Writer did not produce valid script"⟩])
    ∧ (env.collector.success = true → env.signalsValid = true →
        env.writer.success = true → env.scriptValid = true →
        env.publisher.success = true → env.episodeValid = false →
      (run_pipeline env d).logs =
        [⟨"collector", "success", some env.collector.duration, env.collector.error⟩,
         ⟨"writer", "success", some env.writer.duration, env.writer.error⟩,
         ⟨"publisher", "success", some env.publisher.duration, env.publisher.error⟩,
         ⟨"publisher", "failure", some env.publisher.duration,
           some "Publisher did not produce episode MP3"⟩])
    ∧ (env.collector.success = true → env.signalsValid = true →
        env.writer.success = true → env.scriptValid = true →
        env.publisher.success = true → env.episodeValid = true → env.feedValid = false →
      (run_pipeline env d).logs =
        [⟨"collector", "success", some env.collector.duration, env.collector.error⟩,
         ⟨"writer", "success", some env.writer.duration, env.writer.error⟩,
         ⟨"publisher", "success", some env.publisher.duration, env.publisher.error⟩,
         ⟨"publisher", "failure", some env.publisher.duration,
           some "Publisher did not update RSS feed"⟩]) := by
  refine ⟨?_, ?_, ?_, ?_⟩
  · intro hc hs
    simp [run_pipeline, hep, hc, hs, statusStr]
  · intro hc hs hw hscript
    simp [run_pipeline, hep, hc, hs, hw, hscript, statusStr]
  · intro hc hs hw hscript hp hev
    simp [run_pipeline, hep, hc, hs, hw, hscript, hp, hev, statusStr]
  · intro hc hs hw hscript hp hev hfv
    simp [run_pipeline, hep, hc, hs, hw, hscript, hp, hev, hfv, statusStr]

/-- Witness for C10: a concrete run where the writer exits zero but the
produced script fails validation. -/
theorem pipeline_validation_double_logs_witness :
    (run_pipeline ⟨false, ⟨true, 3, none⟩, ⟨true, 9, none⟩, ⟨true, 1, none⟩,
        true, false, true, true⟩ 20).logs =
      [⟨"collector", "success", some 3, none⟩,
       ⟨"writer", "success", some 9, none⟩,
       ⟨"writer", "failure", some 9, some "Writer did not produce valid script"⟩] :=
  (pipeline_validation_double_logs
    ⟨false, ⟨true, 3, none⟩, ⟨true, 9, none⟩, ⟨true, 1, none⟩, true, false, true, true⟩
    20 rfl).2.1 rfl rfl rfl rfl

/-- Counterexample to C8 as stated: on an empty input snapshot with an
empty (zero-row) discussions store, the discussions fetcher returns
is_first_run = false instead of the claimed store-derived true, and the
reviews fetcher returns no result dict at all (None). -/
theorem empty_snapshot_first_run_counterexample :
    (fetch_and_process_discussions (some []) ([] : DiscussionsTable)).1 = some ⟨0, [], false⟩
    ∧ some (⟨0, [], false⟩ : DiscussionsResult) ≠ some (⟨0, [], true⟩ : DiscussionsResult)
    ∧ (fetch_and_process_reviews [] ([] : ReviewsTable)).1 = none :=
  ⟨rfl, by decide, rfl⟩

/-- C8 (amended): for every fetch call whose input snapshot is empty, the
discussions fetcher returns an empty newItems list with is_first_run
hard-coded to false regardless of the prior store state, and the reviews
fetcher returns no result (None) rather than a stats dict; neither call
modifies its store. -/
theorem empty_snapshot_behavior (tableD : DiscussionsTable) (tableR : ReviewsTable) :
    (fetch_and_process_discussions (some []) tableD).1 = some ⟨0, [], false⟩
    ∧ (fetch_and_process_discussions (some []) tableD).2 = tableD
    ∧ (fetch_and_process_reviews [] tableR).1 = none
    ∧ (fetch_and_process_reviews [] tableR).2 = tableR :=
  ⟨rfl, rfl, rfl, rfl⟩

/-! ## Scheduling gate (app/main.py, should_generate_summary) -/

/-- Configuration read from the environment at process start. -/
structure GateConfig where
  enable_ai_summary : Bool
  openai_api_key : String
  interval_hours : Nat
deriving Repr, DecidableEq

/-- The process-wide mutable state of the gate: the cached
last_summary_time global and the first_loop_iteration flag. -/
structure GateState where
  last_summary_time : Option Int
  first_loop_iteration : Bool
deriving Repr, DecidableEq

/-- The last-fire time the gate ends up comparing against: the cached
global if set, otherwise the value loaded from the metadata table. -/
def effectiveLast (st : GateState) (stored : Option Int) : Option Int :=
  match st.last_summary_time with
  | some t => some t
  | none => stored

/-- Python should_generate_summary: feature disabled or missing API key
returns false; the first-loop force returns true before any elapsed-time
logic; otherwise the cached or stored last time decides — unknown means
true, known means fire iff now - last >= interval_hours * 3600.  Returns
the decision together with the updated gate state (the load from the
metadata table mutates last_summary_time; the flag is never touched
here). -/
def should_generate_summary (cfg : GateConfig) (stored : Option Int) (now : Int)
    (st : GateState) : Bool × GateState :=
  if cfg.enable_ai_summary = false then (false, st)
  else if cfg.openai_api_key = "" then (false, st)
  else if st.first_loop_iteration then (true, st)
  else
    let last := effectiveLast st stored
    let st2 := { st with last_summary_time := last }
    match last with
    | none => (true, st2)
    | some t => (decide (now - t ≥ (cfg.interval_hours : Int) * 3600), st2)

/-- One pass of the process's main monitoring loop, restricted to its
effect on the gate state: when the cycle body raises (exn_during_cycle),
the flag-clearing line at the end of the try block is never reached and
the state is unchanged; on normal completion the gate has been evaluated
and first_loop_iteration is set to False afterwards by the loop body. -/
def main_loop_iteration (cfg : GateConfig) (stored : Option Int) (now : Int)
    (st : GateState) (exn_during_cycle : Bool) : GateState :=
  if exn_during_cycle then st
  else
    let st2 := (should_generate_summary cfg stored now st).2
    { st2 with first_loop_iteration := false }

/-- C9: with the feature enabled and a key present, the gate fires
unconditionally while the first-iteration force is set; once the force is
consumed it fires iff the last-fire time is unknown or the interval has
elapsed; the gate itself never clears the force flag — the loop body
clears it only after a cycle completes without an exception, so a failed
cycle retains the force. -/
theorem scheduling_gate_spec (cfg : GateConfig) (stored : Option Int) (now : Int)
    (st : GateState) :
    (cfg.enable_ai_summary = true → cfg.openai_api_key ≠ "" →
      st.first_loop_iteration = true →
      (should_generate_summary cfg stored now st).1 = true)
    ∧ (cfg.enable_ai_summary = true → cfg.openai_api_key ≠ "" →
        st.first_loop_iteration = false →
        ((should_generate_summary cfg stored now st).1 = true ↔
          effectiveLast st stored = none
          ∨ ∃ t, effectiveLast st stored = some t
              ∧ now - t ≥ (cfg.interval_hours : Int) * 3600))
    ∧ (should_generate_summary cfg stored now st).2.first_loop_iteration =
        st.first_loop_iteration
    ∧ (main_loop_iteration cfg stored now st false).first_loop_iteration = false
    ∧ (main_loop_iteration cfg stored now st true).first_loop_iteration =
        st.first_loop_iteration := by
  refine ⟨?_, ?_, ?_, ?_, ?_⟩
  · intro hen hkey hfirst
    simp [should_generate_summary, hen, hkey, hfirst]
  · intro hen hkey hfirst
    rcases hel : effectiveLast st stored with _ | t
    · simp [should_generate_summary, hen, hkey, hfirst, hel]
    · simp only [should_generate_summary, hen, hkey, hfirst, hel]
      constructor
      · intro h
        refine Or.inr ⟨t, rfl, ?_⟩
        simpa using h
      · intro h
        rcases h with h | ⟨t', ht', hle⟩
        · cases h
        · rw [Option.some_inj] at ht'
          subst ht'
          simpa using hle
  · unfold should_generate_summary
    by_cases hen : cfg.enable_ai_summary = false
    · simp [hen]
    · by_cases hkey : cfg.openai_api_key = ""
      · simp [hen, hkey]
      · by_cases hfirst : st.first_loop_iteration = true
        · simp [hen, hkey, hfirst]
        · rcases hel : effectiveLast st stored with _ | t <;>
            simp [hen, hkey, hfirst, hel]
  · simp [main_loop_iteration]
  · simp [main_loop_iteration]

/-- Witness for C9: a fresh process (force set, nothing cached or
stored) with the feature enabled and a key present fires at once. -/
theorem scheduling_gate_spec_witness :
    (should_generate_summary ⟨true, "sk-test", 24⟩ none 1000 ⟨none, true⟩).1 = true :=
  (scheduling_gate_spec ⟨true, "sk-test", 24⟩ none 1000 ⟨none, true⟩).1 rfl
    (by decide) rfl

end NightFeed
